import Mathlib

/-!
# BountyBoard scrape/normalize/merge pipeline — formal model

A shallow embedding, in Lean 4, of the multi-source gig-scraping pipeline of
the BountyBoard repository (TypeScript).  Each definition mirrors one function
of the source:

* `detectLanguage` / `isInLanguage`   — `src/lib/scrapers/base.ts`
* `generateGigId`                     — `src/lib/scrapers/base.ts`
* `remoteokSearch`                    — `src/lib/scrapers/remoteok.ts` (`RemoteOKScraper.search`)
* `jsearchSearch`                     — `src/lib/scrapers/jsearch.ts` (`JSearchScraper.search`)
* `searchGigs`                        — the scraper manager (`searchGigs`)
* `bountyboardSearch`                 — the BountyBoard scraper's `search` (key-check branch)
* `getBusinessTypesForService`        — the BountyBoard scraper's category resolution
* `calculateOpportunityScore`         — the opportunity analyzer
* `missingConfidence`                 — `detectFeature` in the website analyzer

Modelling conventions, used throughout:

* JavaScript numbers are modelled as `ℚ`; machine-level floating point is not
  involved in any property below (all arithmetic is on small exact values).
* An optional (possibly-`undefined`) field is `Option α`; the JavaScript
  truthiness tests `if (x)` on numbers and strings are modelled by the
  `qTruthy` / `natTruthy` / `strTruthy` helpers (`0`, `""` and `undefined`
  are falsy).
* A `search` method that can *throw* is modelled as returning
  `Except String ScrapeResult`; the upstream HTTP interaction of an adapter is
  an explicit `Upstream` value (network rejection, non-2xx status, bad JSON,
  or a parsed body).
* `new Date().toISOString()` is modelled by an explicit `now : String`
  parameter.
* Regular-expression match counting in `detectLanguage` is modelled by
  `countMatches`: one match per special character of the language's character
  class plus one per whitespace/punctuation-delimited word of the text that
  appears in the language's function-word list (case folded).  No property
  below depends on the exact counts, only on the decision structure built on
  top of them.
-/

namespace BountyBoard

/-! ## JavaScript-truthiness helpers -/

/-- Truthiness of an optional number (`undefined` and `0` are falsy). -/
def qTruthy : Option ℚ → Bool
  | none => false
  | some x => x != 0

/-- Truthiness of an optional natural number (`undefined` and `0` are falsy). -/
def natTruthy : Option Nat → Bool
  | none => false
  | some n => n != 0

/-- Truthiness of an optional string (`undefined` and `""` are falsy). -/
def strTruthy : Option String → Bool
  | none => false
  | some s => s != ""

/-- JavaScript `x || d` on an optional string: the default is taken when `x`
is `undefined` or `""`. -/
def strOr (x : Option String) (d : String) : String :=
  match x with
  | none => d
  | some s => if s = "" then d else s

/-- Lower-casing (`String.prototype.toLowerCase`), character by character. -/
def strToLower (s : String) : String :=
  String.mk (s.toList.map Char.toLower)

/-- Drop whitespace from both ends (`String.prototype.trim`). -/
def trimList (l : List Char) : List Char :=
  ((l.dropWhile Char.isWhitespace).reverse.dropWhile Char.isWhitespace).reverse

/-- Replace every (non-overlapping, leftmost) occurrence of `pat` by `repl`
(`String.prototype.replace` with a global pattern). -/
def replaceSub (pat repl l : List Char) : List Char :=
  go l.length l
where
  go : Nat → List Char → List Char
    | _, [] => []
    | 0, rest => rest
    | fuel + 1, c :: rest =>
      if pat ≠ [] ∧ pat.isPrefixOf (c :: rest) then
        repl ++ go fuel (rest.drop (pat.length - 1))
      else c :: go fuel rest

/-- Split on a single space character (`text.split(" ")` of JavaScript). -/
def splitOnSpace (s : String) : List String :=
  go [] s.toList
where
  go (acc : List Char) : List Char → List String
    | [] => [String.mk acc.reverse]
    | c :: rest =>
      if c = ' ' then String.mk acc.reverse :: go [] rest
      else go (c :: acc) rest

/-- Substring containment on character lists: `JavaScript String.includes`. -/
def listContainsSub (pat : List Char) : List Char → Bool
  | [] => pat.isEmpty
  | c :: rest => pat.isPrefixOf (c :: rest) || listContainsSub pat rest

/-- `s.includes(pat)` of JavaScript, on Lean strings. -/
def containsSub (s pat : String) : Bool :=
  listContainsSub pat.toList s.toList

/-! ## Language filter (`src/lib/scrapers/base.ts`) -/

/-- Characters treated as word characters when splitting text into words for
the function-word count (letters, digits, underscore, and any non-ASCII
character). -/
def isWordChar (c : Char) : Bool :=
  c.isAlpha || c.isDigit || c = '_' || c.val > 127

/-- Split a string into its maximal runs of word characters. -/
def splitWords (s : String) : List String :=
  ((s.toList.foldr
      (fun c acc =>
        if isWordChar c then (c :: acc.1, acc.2)
        else ([], (if acc.1.isEmpty then acc.2 else String.mk acc.1 :: acc.2)))
      ([], [])) |> fun acc =>
        if acc.1.isEmpty then acc.2 else String.mk acc.1 :: acc.2)

/-- The character class of the German pattern of `detectLanguage`. -/
def germanChars : List Char := ['ä', 'ö', 'ü', 'ß', 'Ä', 'Ö', 'Ü']

/-- The German function-word alternatives of `detectLanguage`. -/
def germanWords : List String :=
  ["und", "oder", "für", "mit", "bei", "auf", "aus", "nach", "zur", "zum",
   "das", "die", "der", "den", "dem", "ein", "eine", "einer", "eines", "ist",
   "sind", "wird", "werden", "hat", "haben", "kann", "können", "muss",
   "müssen", "soll", "sollen", "wenn", "dass", "weil", "aber", "auch", "noch",
   "schon", "sehr", "mehr", "viel", "alle", "allem", "allen", "aller", "alles"]

/-- The character class of the French pattern of `detectLanguage`. -/
def frenchChars : List Char :=
  ['à', 'â', 'ç', 'é', 'è', 'ê', 'ë', 'î', 'ï', 'ô', 'ù', 'û', 'ü', 'ÿ', 'œ', 'æ']

/-- The French function-word alternatives of `detectLanguage`. -/
def frenchWords : List String :=
  ["et", "ou", "pour", "avec", "dans", "sur", "par", "une", "des", "les",
   "est", "sont", "être", "avoir", "faire", "aller", "voir", "savoir",
   "pouvoir", "vouloir", "devoir", "falloir", "comme", "mais", "donc", "car",
   "parce", "que", "qui", "quoi", "dont", "où"]

/-- The character class of the Spanish pattern of `detectLanguage`. -/
def spanishChars : List Char := ['á', 'é', 'í', 'ó', 'ú', 'ñ', '¿', '¡']

/-- The Spanish function-word alternatives of `detectLanguage`. -/
def spanishWords : List String :=
  ["y", "o", "para", "con", "en", "por", "una", "unos", "unas", "los", "las",
   "del", "al", "es", "son", "ser", "estar", "tener", "hacer", "poder",
   "decir", "ir", "ver", "dar", "saber", "querer", "llegar", "pasar", "deber",
   "poner", "parecer", "quedar", "creer", "hablar", "llevar", "dejar",
   "seguir", "encontrar", "llamar", "venir", "pensar", "salir", "volver",
   "tomar", "conocer", "vivir", "sentir", "tratar", "mirar", "contar",
   "empezar", "esperar", "buscar", "existir", "entrar", "trabajar",
   "escribir", "perder", "producir", "ocurrir", "entender", "pedir",
   "recibir", "recordar", "terminar", "permitir", "aparecer", "conseguir",
   "comenzar", "servir", "sacar", "necesitar", "mantener", "resultar", "leer",
   "caer", "cambiar", "presentar", "crear", "abrir", "considerar", "oír",
   "acabar", "convertir", "ganar", "formar", "traer", "partir", "morir",
   "aceptar", "realizar", "suponer", "comprender", "lograr", "explicar",
   "preguntar", "tocar", "reconocer", "estudiar", "alcanzar", "nacer",
   "dirigir", "correr", "utilizar", "pagar", "ayudar", "gustar", "jugar",
   "escuchar", "cumplir", "ofrecer", "descubrir", "levantar", "intentar"]

/-- Number of matches of one language pattern against a text: special
characters of the class occurring in the text plus function words of the list
occurring as whole words of the lower-cased text. -/
def countMatches (chars : List Char) (words : List String) (text : String) : Nat :=
  (text.toList.filter (fun c => chars.contains c)).length
    + ((splitWords (strToLower text)).filter (fun w => words.contains w)).length

/-- `detectLanguage` of `src/lib/scrapers/base.ts`: pick the language whose
match count strictly exceeds the threshold 3 and the two other counts;
default to `"en"`. -/
def detectLanguage (text : String) : String :=
  let germanMatches := countMatches germanChars germanWords text
  let frenchMatches := countMatches frenchChars frenchWords text
  let spanishMatches := countMatches spanishChars spanishWords text
  let threshold := 3
  if germanMatches > threshold && germanMatches > frenchMatches
      && germanMatches > spanishMatches then "de"
  else if frenchMatches > threshold && frenchMatches > germanMatches
      && frenchMatches > spanishMatches then "fr"
  else if spanishMatches > threshold && spanishMatches > germanMatches
      && spanishMatches > frenchMatches then "es"
  else "en"

/-- `isInLanguage` of `src/lib/scrapers/base.ts`: strict for English targets,
lenient (target language or English) for every other target. -/
def isInLanguage (text : String) (targetLang : String) : Bool :=
  let detectedLang := detectLanguage text
  if targetLang = "en" then
    detectedLang == "en"
  else
    detectedLang == targetLang || detectedLang == "en"

/-! ## Canonical data model (`src/lib/scrapers/types.ts`) -/

/-- `GigSource` is a union of string literal types in the source; it is
modelled as a plain string tag. -/
abbrev GigSource := String

/-- The optional `budget` field of a `ScrapedGig`. -/
structure Budget where
  min : Option ℚ := none
  max : Option ℚ := none
  type : String := "unknown"
  currency : String := "USD"
deriving DecidableEq, Repr

/-- The optional `clientInfo` field of a `ScrapedGig`. -/
structure ClientInfo where
  name : Option String := none
  rating : Option ℚ := none
  jobsPosted : Option Nat := none
  location : Option String := none
deriving DecidableEq, Repr

/-- The canonical record (`ScrapedGig`) every adapter produces. -/
structure ScrapedGig where
  id : String
  source : GigSource
  sourceUrl : String
  title : String
  description : String
  budget : Option Budget := none
  skills : List String := []
  postedAt : Option String := none
  deadline : Option String := none
  clientInfo : Option ClientInfo := none
  scrapedAt : String
deriving DecidableEq, Repr

/-- The per-source result unit (`ScrapeResult`) an adapter returns. -/
structure ScrapeResult where
  source : GigSource
  success : Bool
  gigs : List ScrapedGig
  error : Option String := none
  scrapedAt : String
deriving DecidableEq, Repr

/-- `SearchOptions` of `src/lib/scrapers/base.ts`. -/
structure SearchOptions where
  limit : Option Nat := none
  minBudget : Option ℚ := none
  maxBudget : Option ℚ := none
  skills : Option (List String) := none
  language : Option String := none
  location : Option String := none
deriving DecidableEq, Repr

/-- `generateGigId` of `src/lib/scrapers/base.ts`. -/
def generateGigId (source : GigSource) (externalId : String) : String :=
  source ++ "_" ++ externalId

/-- The upstream HTTP interaction of an adapter's single `fetch`:
the request may reject, return a non-2xx status, deliver a body that fails
to parse as JSON, or deliver a parsed body. -/
inductive Upstream (β : Type) where
  | fetchError (msg : String)
  | httpStatus (status : Nat)
  | badJson (msg : String)
  | ok (body : β)
deriving DecidableEq, Repr

/-! ## RemoteOK adapter (`src/lib/scrapers/remoteok.ts`) -/

/-- One upstream item of the RemoteOK JSON array (`RemoteOKJob`). -/
structure RemoteOKJob where
  id : String := ""
  slug : String := ""
  company : String := ""
  position : String := ""
  description : String := ""
  salary_min : Option ℚ := none
  salary_max : Option ℚ := none
  tags : Option (List String) := none
  url : String := ""
  date : String := ""
  location : Option String := none
deriving DecidableEq, Repr

/-- The parsed RemoteOK payload: a JSON array of jobs, or any non-array
value (`Array.isArray(data)` fails). -/
inductive RemoteOKBody where
  | jsonArray (jobs : List RemoteOKJob)
  | jsonOther
deriving DecidableEq, Repr

/-- Strip HTML tags the way `/<[^>]*>/g → " "` does: characters between `<`
and the next `>` are dropped and replaced by one space.  (An unterminated
tag is dropped as well; no property depends on this corner.) -/
def stripTags : Bool → List Char → List Char
  | _, [] => []
  | true, c :: rest => if c = '>' then ' ' :: stripTags false rest else stripTags true rest
  | false, c :: rest => if c = '<' then stripTags true rest else c :: stripTags false rest

/-- Collapse every run of whitespace to a single space (`/\s+/g → " "`). -/
def collapseWs : Bool → List Char → List Char
  | _, [] => []
  | inWs, c :: rest =>
    if c.isWhitespace then
      (if inWs then [] else [' ']) ++ collapseWs true rest
    else c :: collapseWs false rest

/-- `RemoteOKScraper.cleanDescription`: strip tags, decode the four HTML
entities, collapse whitespace, trim, and truncate to 500 characters. -/
def remoteokCleanDescription (html : String) : String :=
  let l := stripTags false html.toList
  let l := replaceSub "&nbsp;".toList [' '] l
  let l := replaceSub "&amp;".toList ['&'] l
  let l := replaceSub "&lt;".toList ['<'] l
  let l := replaceSub "&gt;".toList ['>'] l
  let l := collapseWs false l
  String.mk ((trimList l).take 500)

/-- The record mapping of `RemoteOKScraper.search` (the `jobs.map` body). -/
def remoteokMapJob (now : String) (job : RemoteOKJob) : ScrapedGig :=
  { id := generateGigId "remoteok" (if job.id = "" then job.slug else job.id)
    source := "remoteok"
    sourceUrl := if job.url = "" then "https://remoteok.com/remote-jobs/" ++ job.slug else job.url
    title := job.position
    description := remoteokCleanDescription job.description
    budget :=
      if qTruthy job.salary_min || qTruthy job.salary_max then
        some { min := job.salary_min, max := job.salary_max
               type := "fixed", currency := "USD" }
      else none
    skills := job.tags.getD []
    postedAt := some job.date
    clientInfo := some { name := some job.company, location := some (strOr job.location "Remote") }
    scrapedAt := now }

/-- The `minBudget` filter predicate of `RemoteOKScraper.search`
(`!g.budget || (g.budget.min && g.budget.min >= options.minBudget!)`),
with JavaScript truthiness of `g.budget.min`. -/
def remoteokBudgetPred (minBudget : ℚ) (g : ScrapedGig) : Bool :=
  match g.budget with
  | none => true
  | some b => qTruthy b.min && decide (b.min.getD 0 ≥ minBudget)

/-- `RemoteOKScraper.search`, as a function of the upstream interaction.
Any rejection, non-2xx status or parse failure is caught and converted into
a failed `ScrapeResult`; a parsed body is mapped with the first array element
discarded, then filtered by language, truncated by `limit`, and filtered by
`minBudget` — in that order, as in the source. -/
def remoteokSearch (upstream : Upstream RemoteOKBody) (_query : String)
    (options : Option SearchOptions) (now : String) : ScrapeResult :=
  let fail : String → ScrapeResult := fun msg =>
    { source := "remoteok", success := false, gigs := [], error := some msg, scrapedAt := now }
  match upstream with
  | .fetchError msg => fail msg
  | .httpStatus status => fail ("RemoteOK API error: " ++ toString status)
  | .badJson msg => fail msg
  | .ok body =>
    let jobs := match body with
      | .jsonArray data => data.drop 1
      | .jsonOther => []
    let gigs := jobs.map (remoteokMapJob now)
    let gigs :=
      if strTruthy (options.bind (·.language)) then
        gigs.filter (fun gig =>
          isInLanguage (gig.title ++ " " ++ gig.description) ((options.bind (·.language)).getD ""))
      else gigs
    let gigs :=
      if natTruthy (options.bind (·.limit)) then
        gigs.take ((options.bind (·.limit)).getD 0)
      else gigs
    let gigs :=
      if qTruthy (options.bind (·.minBudget)) then
        gigs.filter (remoteokBudgetPred ((options.bind (·.minBudget)).getD 0))
      else gigs
    { source := "remoteok", success := true, gigs := gigs, scrapedAt := now }

/-! ## JSearch adapter (`src/lib/scrapers/jsearch.ts`) -/

/-- The `job_highlights` object of a JSearch job. -/
structure JSearchHighlights where
  qualifications : Option (List String) := none
  responsibilities : Option (List String) := none
  benefits : Option (List String) := none
deriving DecidableEq, Repr

/-- One upstream item of the JSearch response (`JSearchJob`). -/
structure JSearchJob where
  job_id : String := ""
  employer_name : String := ""
  job_employment_type : String := ""
  job_title : String := ""
  job_apply_link : String := ""
  job_description : String := ""
  job_is_remote : Bool := false
  job_posted_at_datetime_utc : Option String := none
  job_city : Option String := none
  job_state : Option String := none
  job_country : Option String := none
  job_min_salary : Option ℚ := none
  job_max_salary : Option ℚ := none
  job_salary_currency : Option String := none
  job_salary_period : Option String := none
  job_required_skills : Option (List String) := none
  job_highlights : Option JSearchHighlights := none
  job_publisher : Option String := none
deriving DecidableEq, Repr

/-- The parsed JSearch response body (`JSearchResponse`); `data` is `none`
when the field is absent or null. -/
structure JSearchBody where
  status : String
  data : Option (List JSearchJob) := none
deriving DecidableEq, Repr

/-- `JSearchScraper.mapPublisherToSource`. -/
def mapPublisherToSource (publisher : Option String) : GigSource :=
  match publisher with
  | none => "indeed"
  | some p =>
    let pub := strToLower p
    if containsSub pub "linkedin" then "linkedin"
    else if containsSub pub "indeed" then "indeed"
    else if containsSub pub "glassdoor" then "indeed"
    else "indeed"

/-- `JSearchScraper.cleanDescription`: strip tags, collapse whitespace, trim,
truncate to 500 characters. -/
def jsearchCleanDescription (text : String) : String :=
  String.mk ((trimList (collapseWs false (stripTags false text.toList))).take 500)

/-- `JSearchScraper.extractSkillsFromHighlights`: take the first four words
of each of the first five qualification lines whose length is in (3, 50),
and keep at most five. -/
def extractSkillsFromHighlights (highlights : Option JSearchHighlights) : List String :=
  match highlights.bind (·.qualifications) with
  | none => []
  | some quals =>
    ((quals.take 5).filterMap (fun qual =>
      let words := String.intercalate " " ((splitOnSpace qual).take 4)
      if words.length > 3 ∧ words.length < 50 then some words else none)).take 5

/-- `JSearchScraper.formatLocation`: `"Remote"` for remote jobs, otherwise
the non-empty location parts joined by `", "`, defaulting to `"Unknown"`. -/
def jsearchFormatLocation (job : JSearchJob) : String :=
  if job.job_is_remote then "Remote"
  else
    let parts := ([job.job_city, job.job_state, job.job_country].filterMap id).filter (· ≠ "")
    let joined := String.intercalate ", " parts
    if joined = "" then "Unknown" else joined

/-- The record mapping of `JSearchScraper.search` (the `data.data.map` body). -/
def jsearchMapJob (now : String) (job : JSearchJob) : ScrapedGig :=
  let jobSource := mapPublisherToSource job.job_publisher
  { id := generateGigId jobSource job.job_id
    source := jobSource
    sourceUrl := job.job_apply_link
    title := job.job_title
    description := jsearchCleanDescription job.job_description
    budget :=
      if qTruthy job.job_min_salary || qTruthy job.job_max_salary then
        some { min := job.job_min_salary, max := job.job_max_salary
               type := if job.job_salary_period = some "HOUR" then "hourly" else "fixed"
               currency := strOr job.job_salary_currency "USD" }
      else none
    skills :=
      match job.job_required_skills with
      | some skills => skills
      | none => extractSkillsFromHighlights job.job_highlights
    postedAt := job.job_posted_at_datetime_utc
    clientInfo := some { name := some job.employer_name
                         location := some (jsearchFormatLocation job) }
    scrapedAt := now }

/-- The human-actionable error returned by `JSearchScraper.search` when no
API key is configured. -/
def jsearchMissingKeyError : String :=
  "RAPIDAPI_KEY environment variable not set. Get a free key at https://rapidapi.com/letscrape-6bRBa3QguO5/api/jsearch"

/-- `JSearchScraper.search`, as a function of the configured API key
(`process.env.RAPIDAPI_KEY`) and the upstream interaction.  A missing key is
detected first and reported as a failed result; every upstream failure is
caught and converted likewise; a good body is mapped, filtered by the
scraper's source tag (when it is not the default `"indeed"`), and truncated
by `limit`. -/
def jsearchSearch (apiKey : Option String) (source : GigSource)
    (upstream : Upstream JSearchBody) (_query : String)
    (options : Option SearchOptions) (now : String) : ScrapeResult :=
  let fail : String → ScrapeResult := fun msg =>
    { source := source, success := false, gigs := [], error := some msg, scrapedAt := now }
  if !strTruthy apiKey then
    { source := source, success := false, gigs := []
      error := some jsearchMissingKeyError, scrapedAt := now }
  else
    match upstream with
    | .fetchError msg => fail msg
    | .httpStatus status =>
      fail (if status = 429 then
              "Rate limit exceeded. JSearch free tier allows 500 requests/month."
            else "JSearch API error: " ++ toString status)
    | .badJson msg => fail msg
    | .ok body =>
      if body.status ≠ "OK" ∨ body.data = none then
        fail "Invalid response from JSearch API"
      else
        let gigs := (body.data.getD []).map (jsearchMapJob now)
        let gigs := if source ≠ "indeed" then gigs.filter (fun g => g.source == source) else gigs
        let gigs :=
          if natTruthy (options.bind (·.limit)) then
            gigs.take ((options.bind (·.limit)).getD 0)
          else gigs
        { source := source, success := true, gigs := gigs, scrapedAt := now }

/-! ## Aggregator (`searchGigs` of the scraper manager) -/

/-- An adapter as the aggregator sees it: a source tag and a `search` method
that either resolves to a `ScrapeResult` or throws (modelled by
`Except.error` carrying the thrown message). -/
structure Scraper where
  source : GigSource
  search : String → Option SearchOptions → Except String ScrapeResult

/-- Lookup in the module-level `Map<GigSource, Scraper>` (first binding of
the tag wins, as in a JavaScript `Map`). -/
def lookupScraper : List (GigSource × Scraper) → GigSource → Option Scraper
  | [], _ => none
  | (tag, scraper) :: rest, source =>
    if tag = source then some scraper else lookupScraper rest source

/-- The synthesized error message of the aggregator for an unregistered tag:
`` `Scraper for ${source} is not implemented. Available: ${keys.join(", ")}` ``. -/
def notImplementedError (scrapers : List (GigSource × Scraper)) (source : GigSource) : String :=
  "Scraper for " ++ source ++ " is not implemented. Available: "
    ++ String.intercalate ", " (scrapers.map (·.1))

/-- The per-source body of `searchGigs`: resolve the adapter, call it and
catch anything it throws, or synthesize a not-implemented failure. -/
def searchOne (scrapers : List (GigSource × Scraper)) (query : String)
    (options : Option SearchOptions) (now : String) (source : GigSource) : ScrapeResult :=
  match lookupScraper scrapers source with
  | some scraper =>
    match scraper.search query options with
    | .ok result => result
    | .error msg =>
      { source := source, success := false, gigs := [], error := some msg, scrapedAt := now }
  | none =>
    { source := source, success := false, gigs := []
      error := some (notImplementedError scrapers source), scrapedAt := now }

/-- `searchGigs` of the scraper manager: fan out over the requested sources
(`sources.map` + `Promise.all` keeps request order), collecting one result
per source whether it succeeded, threw, or had no registered adapter. -/
def searchGigs (query : String) (sources : List GigSource)
    (options : Option SearchOptions) (scrapers : List (GigSource × Scraper))
    (now : String) : List ScrapeResult :=
  sources.map (searchOne scrapers query options now)

/-! ## BountyBoard adapter (`src/lib/scrapers/bountyboard.ts`) -/

/-- The Google Places collaborator, reduced to the only observation the
key-check branch of `BountyBoardScraper.search` makes of it. -/
structure GooglePlacesScraper where
  isConfigured : Bool

/-- The placeholder record `BountyBoardScraper.search` returns when the
Google Places API key is not configured. -/
def bountyboardSetupGig (now : String) : ScrapedGig :=
  { id := generateGigId "bountyboard" "setup_required"
    source := "bountyboard"
    sourceUrl := "https://console.cloud.google.com/apis/credentials"
    title := "Set up Google Places API to find real business opportunities"
    description := "BountyBoard Jobs finds real local businesses that need your services. To enable this feature, add your GOOGLE_PLACES_API_KEY to your environment variables. Get a free API key from Google Cloud Console and enable the Places API."
    skills := ["Setup Required"]
    postedAt := some now
    clientInfo := some { name := some "Configuration Needed"
                         location := some "Add GOOGLE_PLACES_API_KEY" }
    scrapedAt := now }

/-- `BountyBoardScraper.search`.  The configuration check is modelled
exactly; the configured path (category resolution, places search, and
per-business analysis, which consume the network collaborators) is abstracted
as the `configured` continuation — the claims below concern only the branch
taken when `GOOGLE_PLACES_API_KEY` is absent. -/
def bountyboardSearch (googleScraper : GooglePlacesScraper)
    (configured : String → Option SearchOptions → String → ScrapeResult)
    (query : String) (options : Option SearchOptions) (now : String) : ScrapeResult :=
  if !googleScraper.isConfigured then
    { source := "bountyboard", success := true
      gigs := [bountyboardSetupGig now], scrapedAt := now }
  else configured query options now

/-- The `SERVICE_TO_BUSINESS_SEARCH` keyword table of
`src/lib/scrapers/bountyboard.ts`, in source order. -/
def SERVICE_TO_BUSINESS_SEARCH : List (String × List String) :=
  [("ai", ["law firm", "accounting firm", "medical practice", "real estate agency", "insurance agency"]),
   ("artificial intelligence", ["law firm", "accounting firm", "medical practice", "consulting firm"]),
   ("machine learning", ["e-commerce", "retail", "marketing agency", "financial services"]),
   ("chatbot", ["restaurant", "hotel", "e-commerce", "customer service", "real estate"]),
   ("automation", ["law firm", "accounting", "real estate", "insurance", "medical office"]),
   ("data", ["retail", "restaurant", "gym", "salon", "medical practice"]),
   ("analytics", ["e-commerce", "restaurant", "retail", "gym", "salon"]),
   ("web", ["salon", "restaurant", "dentist", "gym", "spa", "contractor"]),
   ("website", ["salon", "restaurant", "dentist", "lawyer", "plumber", "contractor"]),
   ("design", ["restaurant", "boutique", "salon", "bakery", "cafe", "florist"]),
   ("app", ["restaurant", "gym", "salon", "medical practice", "retail"]),
   ("seo", ["restaurant", "dentist", "lawyer", "plumber", "contractor", "salon"]),
   ("marketing", ["restaurant", "gym", "salon", "retail", "spa"]),
   ("social", ["restaurant", "cafe", "boutique", "salon", "bakery", "gym"]),
   ("content", ["law firm", "medical practice", "consulting", "real estate", "financial"]),
   ("video", ["restaurant", "gym", "salon", "real estate", "retail"]),
   ("booking", ["salon", "spa", "dentist", "doctor", "fitness", "consultant"]),
   ("schedule", ["salon", "consultant", "therapist", "tutor", "contractor"]),
   ("crm", ["real estate", "insurance", "consultant", "contractor", "law firm"]),
   ("email", ["retail", "restaurant", "service", "gym", "salon"]),
   ("ecommerce", ["boutique", "retail", "bakery", "artisan", "florist"]),
   ("store", ["boutique", "retail", "gift shop", "bakery"]),
   ("shop", ["boutique", "florist", "bakery", "craft"]),
   ("payment", ["restaurant", "salon", "contractor", "consultant"])]

/-- Insert an element at the end unless already present — one step of the
insertion-ordered `Set` the source accumulates matched types in. -/
def insertUnique (acc : List String) (t : String) : List String :=
  if acc.contains t then acc else acc ++ [t]

/-- `BountyBoardScraper.getBusinessTypesForService`: union (in insertion
order) of the types of every table keyword contained in the service query;
if nothing matched, fall back to the raw query plus generic categories. -/
def getBusinessTypesForService (serviceQuery : String) : List String :=
  let matchedTypes := SERVICE_TO_BUSINESS_SEARCH.foldl
    (fun acc entry =>
      if containsSub serviceQuery entry.1 then entry.2.foldl insertUnique acc else acc)
    []
  if matchedTypes.isEmpty then
    [serviceQuery, "small business", "local business"]
  else matchedTypes

/-! ## Opportunity analyzer (`src/lib/opportunities/analyzer.ts`) -/

/-- A review-derived pain point; `calculateOpportunityScore` reads only the
`severity` field of the source's `PainPoint`, the other fields are carried
for fidelity of shape. -/
structure PainPoint where
  category : String := ""
  severity : ℚ
  count : Nat := 0
deriving DecidableEq, Repr

/-- A website-scan missing feature (`MissingFeature`). -/
structure MissingFeature where
  feature : String := ""
  confidence : ℚ
  searchedFor : List String := []
  recommendation : String := ""
deriving DecidableEq, Repr

/-- A business record, restricted to the fields
`calculateOpportunityScore` reads. -/
structure Business where
  name : String := ""
  category : String := ""
  city : String := ""
  rating : ℚ
  reviewCount : Nat
deriving DecidableEq, Repr

/-- `calculateOpportunityScore`: bounded pain-point contribution (≤ 50),
bounded missing-feature contribution (≤ 30), review-count and rating bonuses
(≤ 10 each); priority tier from the accumulated score; returned score clamped
by `Math.min(score, 100)`. -/
def calculateOpportunityScore (painPoints : List PainPoint)
    (missingFeatures : List MissingFeature) (business : Business) : ℚ × String :=
  let painPointScore := painPoints.foldl (fun sum pp => sum + pp.severity) 0
  let score : ℚ := min (painPointScore * 3) 50
  let missingScore : ℚ := ((missingFeatures.filter (fun mf => mf.confidence > 7/10)).length : ℚ) * 5
  let score := score + min missingScore 30
  let score := score +
    (if business.reviewCount ≥ 100 then 10
     else if business.reviewCount ≥ 50 then 7
     else if business.reviewCount ≥ 20 then 5 else 0)
  let score := score +
    (if business.rating < 7/2 then 10
     else if business.rating < 4 then 5 else 0)
  let priority := if score ≥ 70 then "high" else if score ≥ 40 then "medium" else "low"
  (min score 100, priority)

/-! ## Website analyzer confidence (`detectFeature` of
`src/lib/opportunities/website-analyzer.ts`) -/

/-- `signals / totalChecks`, zero when no checks ran. -/
def detectionRatio (signals totalChecks : Nat) : ℚ :=
  if 0 < totalChecks then (signals : ℚ) / totalChecks else 0

/-- `detected = detectionRatio > 0.2`. -/
def featureDetected (signals totalChecks : Nat) : Bool :=
  detectionRatio signals totalChecks > 1/5

/-- The confidence-in-absence `detectFeature` attaches:
`detected ? 0 : Math.min(1 - detectionRatio + 0.3, 1)`. -/
def missingConfidence (signals totalChecks : Nat) : ℚ :=
  if featureDetected signals totalChecks then 0
  else min (1 - detectionRatio signals totalChecks + 3/10) 1

/-- Modelled from the spec (not the source): the confidence formula the
specification states, `1 - detectionRatio` clamped to `[0, 1]`.  Kept
separate so it can be compared with the source's `missingConfidence`. -/
def specMissingConfidence (signals totalChecks : Nat) : ℚ :=
  max 0 (min (1 - detectionRatio signals totalChecks) 1)

/-! ## Theorems -/

/-- C6: Language-filter strictness asymmetry.  For every text,
`isInLanguage text "en"` holds exactly when the detected language is `"en"`
(so a text detected as `"de"` is excluded for target `"en"`), while for every
non-English target `t`, `isInLanguage text t` holds exactly when the detected
language is `t` or `"en"` (so a text detected as `"en"` is included for
target `"de"`). -/
theorem isInLanguage_strictness_asymmetry (text target : String) :
    (isInLanguage text "en" = true ↔ detectLanguage text = "en")
    ∧ (target ≠ "en" →
        (isInLanguage text target = true ↔
          (detectLanguage text = target ∨ detectLanguage text = "en"))) := by
  constructor
  · simp [isInLanguage]
  · intro htarget
    simp [isInLanguage, htarget]

/-- Witness for C6: `"ä ä ä ä"` is detected as `"de"` and excluded for target
`"en"`; `"hello"` is detected as `"en"` and included for target `"de"`. -/
theorem isInLanguage_strictness_asymmetry_witness :
    detectLanguage "ä ä ä ä" = "de"
    ∧ isInLanguage "ä ä ä ä" "en" = false
    ∧ detectLanguage "hello" = "en"
    ∧ (isInLanguage "hello" "de" = true ↔
        (detectLanguage "hello" = "de" ∨ detectLanguage "hello" = "en")) := by
  refine ⟨by decide, by decide, by decide, ?_⟩
  exact (isInLanguage_strictness_asymmetry "hello" "de").2 (by decide)

/-- C9 (counterexample): at 1 matched signal out of 10 checks the feature is
not detected, and the confidence `detectFeature` attaches is `1`, not the
spec's `1 - detectionRatio = 0.9` clamped to `[0, 1]`. -/
theorem missingConfidence_counterexample :
    featureDetected 1 10 = false
    ∧ missingConfidence 1 10 = 1
    ∧ specMissingConfidence 1 10 = 9/10
    ∧ (1 : ℚ) ≠ 9/10 := by
  refine ⟨?_, ?_, ?_, by norm_num⟩
  · simp [featureDetected, detectionRatio]
    norm_num
  · simp [missingConfidence, featureDetected, detectionRatio]
    norm_num
  · simp [specMissingConfidence, detectionRatio]
    norm_num

/-- C9 (amended): for every feature type the website analyzer does not
detect, the confidence attached to the resulting missing-feature entry is
`min (1 - detectionRatio + 0.3) 1` — which, because non-detection means
`detectionRatio ≤ 0.2`, always equals `1`. -/
theorem missingConfidence_value (signals totalChecks : Nat)
    (h : featureDetected signals totalChecks = false) :
    missingConfidence signals totalChecks
      = min (1 - detectionRatio signals totalChecks + 3/10) 1
    ∧ missingConfidence signals totalChecks = 1 := by
  have hratio : detectionRatio signals totalChecks ≤ 1/5 := by
    have h' := h
    simp [featureDetected] at h'
    linarith
  constructor
  · simp [missingConfidence, h]
  · simp only [missingConfidence, h, Bool.false_eq_true, if_false]
    rw [min_eq_right]
    linarith

/-- Witness for C9 (amended): the amended theorem evaluated at
1 signal / 10 checks. -/
theorem missingConfidence_value_witness :
    missingConfidence 1 10 = min (1 - detectionRatio 1 10 + 3/10) 1
    ∧ missingConfidence 1 10 = 1 :=
  missingConfidence_value 1 10 (by simp [featureDetected, detectionRatio]; norm_num)

/-- C2 (counterexample): with `GOOGLE_PLACES_API_KEY` absent, the BountyBoard
adapter's `search` returns `success: true` with no `error` string and one
placeholder record — not a `SourceResult` with `success: false` as the claim
states for every adapter. -/
theorem bountyboard_missing_key_counterexample :
    (bountyboardSearch ⟨false⟩
        (fun _ _ now => { source := "bountyboard", success := true, gigs := [], scrapedAt := now })
        "web design" none "2024-01-01T00:00:00.000Z").success = true
    ∧ (bountyboardSearch ⟨false⟩
        (fun _ _ now => { source := "bountyboard", success := true, gigs := [], scrapedAt := now })
        "web design" none "2024-01-01T00:00:00.000Z").error = none
    ∧ (bountyboardSearch ⟨false⟩
        (fun _ _ now => { source := "bountyboard", success := true, gigs := [], scrapedAt := now })
        "web design" none "2024-01-01T00:00:00.000Z").gigs.length = 1 := by
  refine ⟨rfl, rfl, rfl⟩

/-- C2 (amended): when its required credential is absent, each adapter
returns without throwing and before any network call (the result does not
depend on the upstream interaction or the collaborator): the JSearch adapter
returns `success: false` with a human-actionable error string, while the
BountyBoard adapter returns `success: true` with a single placeholder record
directing the operator to configure the key and no error string. -/
theorem missing_key_behavior (source : GigSource) (upstream : Upstream JSearchBody)
    (configured : String → Option SearchOptions → String → ScrapeResult)
    (query : String) (options : Option SearchOptions) (now : String) :
    jsearchSearch none source upstream query options now
      = { source := source, success := false, gigs := []
          error := some jsearchMissingKeyError, scrapedAt := now }
    ∧ bountyboardSearch ⟨false⟩ configured query options now
      = { source := "bountyboard", success := true
          gigs := [bountyboardSetupGig now], scrapedAt := now } := by
  exact ⟨rfl, rfl⟩

/-- The pain-point severity sum is nonnegative when every severity is. -/
lemma severity_foldl_nonneg (l : List PainPoint) (init : ℚ) (h0 : 0 ≤ init)
    (h : ∀ pp ∈ l, 0 ≤ pp.severity) :
    0 ≤ l.foldl (fun sum pp => sum + pp.severity) init := by
  induction l generalizing init with
  | nil => simpa using h0
  | cons pp rest ih =>
    simp only [List.foldl_cons]
    exact ih (init + pp.severity)
      (add_nonneg h0 (h pp (List.mem_cons_self pp rest)))
      (fun q hq => h q (List.mem_cons_of_mem pp hq))

/-- The pain-point severity sum is monotone in pointwise severity. -/
lemma severity_foldl_mono {l l' : List PainPoint} (init init' : ℚ) (hi : init ≤ init')
    (h : List.Forall₂ (fun a b => a.severity ≤ b.severity) l l') :
    l.foldl (fun sum pp => sum + pp.severity) init
      ≤ l'.foldl (fun sum pp => sum + pp.severity) init' := by
  induction h generalizing init init' with
  | nil => simpa using hi
  | cons hab _ ih =>
    simp only [List.foldl_cons]
    exact ih _ _ (add_le_add hi hab)

/-- The score `calculateOpportunityScore` accumulates before the final
`Math.min(score, 100)` clamp (used to characterize both components). -/
def opportunityRaw (painPoints : List PainPoint)
    (missingFeatures : List MissingFeature) (business : Business) : ℚ :=
  min ((painPoints.foldl (fun sum pp => sum + pp.severity) 0) * 3) 50
    + min (((missingFeatures.filter (fun mf => mf.confidence > 7/10)).length : ℚ) * 5) 30
    + (if business.reviewCount ≥ 100 then 10
       else if business.reviewCount ≥ 50 then 7
       else if business.reviewCount ≥ 20 then 5 else 0)
    + (if business.rating < 7/2 then 10
       else if business.rating < 4 then 5 else 0)

/-- `calculateOpportunityScore` characterized through `opportunityRaw`. -/
lemma calculateOpportunityScore_eq (painPoints : List PainPoint)
    (missingFeatures : List MissingFeature) (business : Business) :
    calculateOpportunityScore painPoints missingFeatures business
      = (min (opportunityRaw painPoints missingFeatures business) 100,
         if opportunityRaw painPoints missingFeatures business ≥ 70 then "high"
         else if opportunityRaw painPoints missingFeatures business ≥ 40 then "medium"
         else "low") := rfl

/-- `opportunityRaw` is at most 100 (each contribution is bounded). -/
lemma opportunityRaw_le (painPoints : List PainPoint)
    (missingFeatures : List MissingFeature) (business : Business) :
    opportunityRaw painPoints missingFeatures business ≤ 100 := by
  unfold opportunityRaw
  have h1 := min_le_right ((painPoints.foldl (fun sum pp => sum + pp.severity) 0) * 3) (50 : ℚ)
  have h2 := min_le_right
    (((missingFeatures.filter (fun mf => mf.confidence > 7/10)).length : ℚ) * 5) (30 : ℚ)
  split_ifs <;> linarith

/-- C7: Opportunity-score monotonicity and clamping.  Raising pain-point
severities pointwise (missing features and business held constant) never
lowers the returned score; the returned score lies in `[0, 100]` (the lower
bound under the analyzer's invariant that severities are nonnegative); and
the priority tier is `"high"` iff score ≥ 70, `"medium"` iff 40 ≤ score < 70,
and `"low"` iff score < 40. -/
theorem calculateOpportunityScore_monotone_clamped
    (painPoints painPoints' : List PainPoint)
    (missingFeatures : List MissingFeature) (business : Business)
    (hmono : List.Forall₂ (fun a b => a.severity ≤ b.severity) painPoints painPoints')
    (hnonneg : ∀ pp ∈ painPoints, 0 ≤ pp.severity) :
    (calculateOpportunityScore painPoints missingFeatures business).1
      ≤ (calculateOpportunityScore painPoints' missingFeatures business).1
    ∧ 0 ≤ (calculateOpportunityScore painPoints missingFeatures business).1
    ∧ (calculateOpportunityScore painPoints missingFeatures business).1 ≤ 100
    ∧ ((calculateOpportunityScore painPoints missingFeatures business).2 = "high"
        ↔ 70 ≤ (calculateOpportunityScore painPoints missingFeatures business).1)
    ∧ ((calculateOpportunityScore painPoints missingFeatures business).2 = "medium"
        ↔ (40 ≤ (calculateOpportunityScore painPoints missingFeatures business).1
            ∧ (calculateOpportunityScore painPoints missingFeatures business).1 < 70))
    ∧ ((calculateOpportunityScore painPoints missingFeatures business).2 = "low"
        ↔ (calculateOpportunityScore painPoints missingFeatures business).1 < 40) := by
  have hraw_le := opportunityRaw_le painPoints missingFeatures business
  have hraw_le' := opportunityRaw_le painPoints' missingFeatures business
  have hsum_mono : painPoints.foldl (fun sum pp => sum + pp.severity) 0
      ≤ painPoints'.foldl (fun sum pp => sum + pp.severity) 0 :=
    severity_foldl_mono 0 0 le_rfl hmono
  have hsum_nonneg : 0 ≤ painPoints.foldl (fun sum pp => sum + pp.severity) 0 :=
    severity_foldl_nonneg _ 0 le_rfl hnonneg
  have hraw_mono : opportunityRaw painPoints missingFeatures business
      ≤ opportunityRaw painPoints' missingFeatures business := by
    unfold opportunityRaw
    have : min ((painPoints.foldl (fun sum pp => sum + pp.severity) 0) * 3) (50 : ℚ)
        ≤ min ((painPoints'.foldl (fun sum pp => sum + pp.severity) 0) * 3) 50 :=
      min_le_min (by linarith) le_rfl
    split_ifs <;> linarith
  have hraw_nonneg : 0 ≤ opportunityRaw painPoints missingFeatures business := by
    unfold opportunityRaw
    have h1 : (0 : ℚ) ≤ min ((painPoints.foldl (fun sum pp => sum + pp.severity) 0) * 3) 50 :=
      le_min (by linarith) (by norm_num)
    have h2 : (0 : ℚ) ≤ min
        (((missingFeatures.filter (fun mf => mf.confidence > 7/10)).length : ℚ) * 5) 30 :=
      le_min (by positivity) (by norm_num)
    split_ifs <;> linarith
  rw [calculateOpportunityScore_eq painPoints missingFeatures business,
      calculateOpportunityScore_eq painPoints' missingFeatures business]
  simp only [min_eq_left hraw_le, min_eq_left hraw_le']
  set raw := opportunityRaw painPoints missingFeatures business with hraw
  refine ⟨hraw_mono, hraw_nonneg, hraw_le, ?_, ?_, ?_⟩
  · split_ifs with h1 h2
    · exact ⟨fun _ => h1, fun _ => rfl⟩
    · exact ⟨fun h => absurd h (by decide), fun h => absurd h h1⟩
    · exact ⟨fun h => absurd h (by decide), fun h => absurd h h1⟩
  · split_ifs with h1 h2
    · exact ⟨fun h => absurd h (by decide), fun h => absurd h1 (not_le.mpr h.2)⟩
    · exact ⟨fun _ => ⟨h2, not_le.mp h1⟩, fun _ => rfl⟩
    · exact ⟨fun h => absurd h (by decide), fun h => absurd h.1 h2⟩
  · split_ifs with h1 h2
    · exact ⟨fun h => absurd h (by decide), fun h => absurd (h1.trans h.le) (by norm_num)⟩
    · exact ⟨fun h => absurd h (by decide), fun h => absurd h (not_lt.mpr h2)⟩
    · exact ⟨fun _ => not_le.mp h2, fun _ => rfl⟩

/-- Witness for C7: the theorem at one pain point of severity 2 against one
of severity 5, one high-confidence missing feature, and a concrete
business. -/
theorem calculateOpportunityScore_monotone_clamped_witness :
    (calculateOpportunityScore [{ severity := 2 }] [{ confidence := 4/5 }]
        { rating := 3, reviewCount := 120 }).1
      ≤ (calculateOpportunityScore [{ severity := 5 }] [{ confidence := 4/5 }]
        { rating := 3, reviewCount := 120 }).1
    ∧ 0 ≤ (calculateOpportunityScore [{ severity := 2 }] [{ confidence := 4/5 }]
        { rating := 3, reviewCount := 120 }).1
    ∧ (calculateOpportunityScore [{ severity := 2 }] [{ confidence := 4/5 }]
        { rating := 3, reviewCount := 120 }).1 ≤ 100
    ∧ ((calculateOpportunityScore [{ severity := 2 }] [{ confidence := 4/5 }]
        { rating := 3, reviewCount := 120 }).2 = "high"
        ↔ 70 ≤ (calculateOpportunityScore [{ severity := 2 }] [{ confidence := 4/5 }]
        { rating := 3, reviewCount := 120 }).1)
    ∧ ((calculateOpportunityScore [{ severity := 2 }] [{ confidence := 4/5 }]
        { rating := 3, reviewCount := 120 }).2 = "medium"
        ↔ (40 ≤ (calculateOpportunityScore [{ severity := 2 }] [{ confidence := 4/5 }]
        { rating := 3, reviewCount := 120 }).1
            ∧ (calculateOpportunityScore [{ severity := 2 }] [{ confidence := 4/5 }]
        { rating := 3, reviewCount := 120 }).1 < 70))
    ∧ ((calculateOpportunityScore [{ severity := 2 }] [{ confidence := 4/5 }]
        { rating := 3, reviewCount := 120 }).2 = "low"
        ↔ (calculateOpportunityScore [{ severity := 2 }] [{ confidence := 4/5 }]
        { rating := 3, reviewCount := 120 }).1 < 40) :=
  calculateOpportunityScore_monotone_clamped
    [{ severity := 2 }] [{ severity := 5 }] [{ confidence := 4/5 }]
    { rating := 3, reviewCount := 120 }
    (by constructor
        · norm_num
        · exact List.Forall₂.nil)
    (by intro pp hpp
        simp only [List.mem_singleton] at hpp
        subst hpp
        norm_num)

/-- When no table keyword is contained in the query, the matched-type
accumulation leaves the accumulator unchanged. -/
lemma matchedTypes_of_no_keyword (serviceQuery : String)
    (tbl : List (String × List String)) (acc : List String)
    (h : ∀ entry ∈ tbl, containsSub serviceQuery entry.1 = false) :
    tbl.foldl
      (fun acc entry =>
        if containsSub serviceQuery entry.1 then entry.2.foldl insertUnique acc else acc)
      acc = acc := by
  induction tbl generalizing acc with
  | nil => rfl
  | cons e rest ih =>
    simp only [List.foldl_cons, h e (List.mem_cons_self e rest), Bool.false_eq_true, if_false]
    exact ih acc (fun e' he' => h e' (List.mem_cons_of_mem e he'))

/-- C8: Empty-category fallback.  For every service query containing none of
the keywords of the `SERVICE_TO_BUSINESS_SEARCH` table, the BountyBoard
scraper's category resolution returns exactly the raw query plus the generic
categories, hence a non-empty list that includes the raw query itself. -/
theorem getBusinessTypesForService_fallback (serviceQuery : String)
    (h : ∀ entry ∈ SERVICE_TO_BUSINESS_SEARCH, containsSub serviceQuery entry.1 = false) :
    getBusinessTypesForService serviceQuery
      = [serviceQuery, "small business", "local business"]
    ∧ serviceQuery ∈ getBusinessTypesForService serviceQuery
    ∧ getBusinessTypesForService serviceQuery ≠ [] := by
  have hfold := matchedTypes_of_no_keyword serviceQuery SERVICE_TO_BUSINESS_SEARCH [] h
  have heq : getBusinessTypesForService serviceQuery
      = [serviceQuery, "small business", "local business"] := by
    unfold getBusinessTypesForService
    rw [hfold]
    rfl
  exact ⟨heq, by rw [heq]; exact List.mem_cons_self _ _, by rw [heq]; simp⟩

/-- Witness for C8: the unmatched query `"xyzzy unmatched term"`. -/
theorem getBusinessTypesForService_fallback_witness :
    getBusinessTypesForService "xyzzy unmatched term"
      = ["xyzzy unmatched term", "small business", "local business"]
    ∧ "xyzzy unmatched term" ∈ getBusinessTypesForService "xyzzy unmatched term"
    ∧ getBusinessTypesForService "xyzzy unmatched term" ≠ [] :=
  getBusinessTypesForService_fallback "xyzzy unmatched term" (by decide)

/-- The records a RemoteOK search returns form a sublist of the mapped tail
of the upstream array (the language filter, the limit, and the budget filter
only ever remove records). -/
lemma remoteokSearch_gigs_sublist (l : List RemoteOKJob) (query : String)
    (options : Option SearchOptions) (now : String) :
    List.Sublist ((remoteokSearch (.ok (.jsonArray l)) query options now).gigs)
      ((l.drop 1).map (remoteokMapJob now)) := by
  simp only [remoteokSearch]
  split_ifs <;>
    first
      | exact List.Sublist.refl _
      | exact List.filter_sublist _
      | exact List.take_sublist _ _
      | exact (List.filter_sublist _).trans (List.take_sublist _ _)
      | exact (List.filter_sublist _).trans (List.filter_sublist _)
      | exact (List.take_sublist _ _).trans (List.filter_sublist _)
      | exact ((List.take_sublist _ _).trans (List.filter_sublist _)).trans
          (List.filter_sublist _)
      | exact (List.filter_sublist _).trans
          ((List.take_sublist _ _).trans (List.filter_sublist _))

/-- C10: the RemoteOK adapter never maps the first element of the upstream
JSON array into a record (it is discarded as metadata), so at most `n - 1`
records are produced from `n` upstream items, and every returned record comes
from the tail of the array; a non-array payload maps to zero records. -/
theorem remoteok_discards_first_element (l : List RemoteOKJob) (query : String)
    (options : Option SearchOptions) (now : String) :
    (remoteokSearch (.ok (.jsonArray l)) query options now).gigs.length ≤ l.length - 1
    ∧ (∀ g ∈ (remoteokSearch (.ok (.jsonArray l)) query options now).gigs,
        g ∈ (l.drop 1).map (remoteokMapJob now))
    ∧ (remoteokSearch (.ok .jsonOther) query options now).gigs = [] := by
  have hsub := remoteokSearch_gigs_sublist l query options now
  refine ⟨?_, fun g hg => hsub.subset hg, ?_⟩
  · have := hsub.length_le
    simpa [List.length_drop] using this
  · simp only [remoteokSearch]
    split_ifs <;> simp

/-- Witness for C10: a three-element upstream array (metadata plus two jobs)
yields the two tail records, and the membership bound holds for the first
returned record. -/
theorem remoteok_discards_first_element_witness :
    (remoteokSearch
        (.ok (.jsonArray [{ id := "0", slug := "meta" },
                          { id := "1", slug := "a", position := "Dev A" },
                          { id := "2", slug := "b", position := "Dev B" }]))
        "q" none "T").gigs.length ≤ 3 - 1
    ∧ remoteokMapJob "T" { id := "1", slug := "a", position := "Dev A" }
        ∈ ([{ id := "0", slug := "meta" },
            { id := "1", slug := "a", position := "Dev A" },
            { id := "2", slug := "b", position := "Dev B" }].drop 1).map
            (remoteokMapJob "T") := by
  refine ⟨?_, ?_⟩
  · have h := (remoteok_discards_first_element
      [{ id := "0", slug := "meta" },
       { id := "1", slug := "a", position := "Dev A" },
       { id := "2", slug := "b", position := "Dev B" }] "q" none "T").1
    simpa using h
  · exact (remoteok_discards_first_element
      [{ id := "0", slug := "meta" },
       { id := "1", slug := "a", position := "Dev A" },
       { id := "2", slug := "b", position := "Dev B" }] "q" none "T").2.1
      (remoteokMapJob "T" { id := "1", slug := "a", position := "Dev A" })
      (by decide)

/-- C3 (counterexample): with only `maxBudget = 100` set, a RemoteOK record
whose budget is 200–300 — strictly above `maxBudget` — is *not* removed: the
RemoteOK adapter never applies `maxBudget`. -/
theorem remoteok_budget_filter_counterexample :
    (remoteokSearch
        (.ok (.jsonArray [{ id := "0", slug := "meta" },
                          { id := "3", slug := "c", position := "Dev C",
                            salary_min := some 200, salary_max := some 300 }]))
        "q" (some { maxBudget := some 100 }) "T").gigs.map (·.budget)
      = [some { min := some 200, max := some 300, type := "fixed", currency := "USD" }]
    ∧ ¬((200 : ℚ) ≤ 100) := by
  exact ⟨by decide, by norm_num⟩

/-- With `minBudget` set to a nonzero value, the RemoteOK search output is
the budget-filtered form of some intermediate record list. -/
lemma remoteokSearch_gigs_minBudget (l : List RemoteOKJob) (query : String)
    (opts : SearchOptions) (now : String) (m : ℚ)
    (hm : opts.minBudget = some m) (hm0 : m ≠ 0) :
    ∃ X : List ScrapedGig,
      (remoteokSearch (.ok (.jsonArray l)) query (some opts) now).gigs
        = List.filter (remoteokBudgetPred m) X := by
  have hq : qTruthy ((some opts).bind (fun o => o.minBudget)) = true := by
    simp [hm, qTruthy, hm0]
  have hget : ((some opts).bind (fun o => o.minBudget)).getD 0 = m := by
    simp [hm]
  simp only [remoteokSearch, hq, if_true, hget]
  exact ⟨_, rfl⟩

/-- C3 (amended): for the RemoteOK adapter with a nonzero `minBudget` set, a
mapped record with no budget is never removed by the budget filter, and a
record whose `budget.min` is present, nonzero and below `minBudget` is always
removed; `maxBudget`, however, is ignored entirely by this adapter, so
records with budgets above `maxBudget` are retained. -/
theorem remoteok_budget_filter (l : List RemoteOKJob) (query : String)
    (opts : SearchOptions) (now : String) (m : ℚ)
    (hm : opts.minBudget = some m) (hm0 : m ≠ 0) :
    (∀ g : ScrapedGig, g.budget = none → remoteokBudgetPred m g = true)
    ∧ (∀ (g : ScrapedGig) (b : Budget) (x : ℚ),
        g.budget = some b → b.min = some x → x ≠ 0 → x < m →
        remoteokBudgetPred m g = false)
    ∧ (∀ g ∈ (remoteokSearch (.ok (.jsonArray l)) query (some opts) now).gigs,
        remoteokBudgetPred m g = true)
    ∧ (∀ g : ScrapedGig, remoteokBudgetPred m g = false →
        g ∉ (remoteokSearch (.ok (.jsonArray l)) query (some opts) now).gigs)
    ∧ (∀ mb : Option ℚ,
        remoteokSearch (.ok (.jsonArray l)) query (some { opts with maxBudget := mb }) now
          = remoteokSearch (.ok (.jsonArray l)) query (some opts) now) := by
  obtain ⟨X, hX⟩ := remoteokSearch_gigs_minBudget l query opts now m hm hm0
  refine ⟨?_, ?_, ?_, ?_, fun _ => rfl⟩
  · intro g hg
    simp [remoteokBudgetPred, hg]
  · intro g b x hgb hbx hx0 hxm
    simp [remoteokBudgetPred, hgb, hbx, qTruthy, hx0, not_le.mpr hxm]
  · intro g hg
    rw [hX] at hg
    exact (List.mem_filter.mp hg).2
  · intro g hpred hmem
    rw [hX] at hmem
    have htrue := (List.mem_filter.mp hmem).2
    simp [hpred] at htrue

/-- Witness for C3 (amended): a no-budget record survives the filter and is
in the output, a record with `budget.min = 100 < 200` is removed, and setting
`maxBudget` does not change the result. -/
theorem remoteok_budget_filter_witness :
    remoteokBudgetPred 200 (remoteokMapJob "T" { id := "9", slug := "nb", position := "NB" }) = true
    ∧ remoteokBudgetPred 200
        (remoteokMapJob "T" { id := "2", slug := "b", position := "Dev B", salary_min := some 100 }) = false
    ∧ remoteokMapJob "T" { id := "2", slug := "b", position := "Dev B", salary_min := some 100 }
        ∉ (remoteokSearch
            (.ok (.jsonArray [{ id := "0", slug := "meta" },
                              { id := "9", slug := "nb", position := "NB" },
                              { id := "2", slug := "b", position := "Dev B",
                                salary_min := some 100 }]))
            "q" (some { minBudget := some 200 }) "T").gigs
    ∧ remoteokSearch
        (.ok (.jsonArray [{ id := "0", slug := "meta" },
                          { id := "9", slug := "nb", position := "NB" },
                          { id := "2", slug := "b", position := "Dev B",
                            salary_min := some 100 }]))
        "q" (some { minBudget := some 200, maxBudget := some 100 }) "T"
      = remoteokSearch
        (.ok (.jsonArray [{ id := "0", slug := "meta" },
                          { id := "9", slug := "nb", position := "NB" },
                          { id := "2", slug := "b", position := "Dev B",
                            salary_min := some 100 }]))
        "q" (some { minBudget := some 200 }) "T" := by
  have thm := remoteok_budget_filter
    [{ id := "0", slug := "meta" },
     { id := "9", slug := "nb", position := "NB" },
     { id := "2", slug := "b", position := "Dev B", salary_min := some 100 }]
    "q" { minBudget := some 200 } "T" 200 rfl (by norm_num)
  refine ⟨?_, ?_, ?_, ?_⟩
  · exact thm.1 _ (by decide)
  · exact thm.2.1 _ { min := some 100, max := none, type := "fixed", currency := "USD" } 100
      (by decide) rfl (by norm_num) (by norm_num)
  · exact thm.2.2.2.1 _ (by decide)
  · exact thm.2.2.2.2 (some 100)

/-- C4 (counterexample): with `limit = 1` and `minBudget = 200`, RemoteOK
truncates the 2 mapped records to 1 *before* applying the budget filter and
then removes it, returning 0 records although `k = 1 < N = 2` mapped
upstream items were available (the claim demands exactly 1). -/
theorem remoteok_limit_counterexample :
    (([{ id := "0", slug := "meta" },
       { id := "1", slug := "a", position := "Dev A", salary_min := some 100 },
       { id := "2", slug := "b", position := "Dev B", salary_min := some 100 }]
        : List RemoteOKJob).drop 1).length = 2
    ∧ (remoteokSearch
        (.ok (.jsonArray [{ id := "0", slug := "meta" },
                          { id := "1", slug := "a", position := "Dev A",
                            salary_min := some 100 },
                          { id := "2", slug := "b", position := "Dev B",
                            salary_min := some 100 }]))
        "q" (some { limit := some 1, minBudget := some 200 }) "T").gigs.length = 0
    ∧ (1 : Nat) < 2 ∧ (0 : Nat) ≠ 1 := by
  exact ⟨by decide, by decide, by decide, by decide⟩

/-- C4 (amended): when the limit is the only filtering option in effect, each
adapter returns exactly the first `k` mapped records in upstream order —
truncation of the prefix, never sampling or reordering — and exactly `k`
records whenever `k < N`.  (When `minBudget` is also set, RemoteOK applies
the budget filter after the truncation and may return fewer, as the
counterexample shows.) -/
theorem limit_exact_truncation :
    (∀ (l : List RemoteOKJob) (query : String) (opts : SearchOptions)
        (now : String) (k : Nat),
      strTruthy opts.language = false → qTruthy opts.minBudget = false →
      opts.limit = some k → k ≠ 0 →
      (remoteokSearch (.ok (.jsonArray l)) query (some opts) now).gigs
        = ((l.drop 1).map (remoteokMapJob now)).take k
      ∧ (k < (l.drop 1).length →
          (remoteokSearch (.ok (.jsonArray l)) query (some opts) now).gigs.length = k))
    ∧ (∀ (dl : List JSearchJob) (key query : String) (opts : SearchOptions)
        (now : String) (k : Nat),
      key ≠ "" → opts.limit = some k → k ≠ 0 →
      (jsearchSearch (some key) "indeed" (.ok { status := "OK", data := some dl })
          query (some opts) now).gigs
        = (dl.map (jsearchMapJob now)).take k
      ∧ (k < dl.length →
          (jsearchSearch (some key) "indeed" (.ok { status := "OK", data := some dl })
              query (some opts) now).gigs.length = k)) := by
  constructor
  · intro l query opts now k hlang hmin hlim hk
    have heq : (remoteokSearch (.ok (.jsonArray l)) query (some opts) now).gigs
        = ((l.drop 1).map (remoteokMapJob now)).take k := by
      simp only [remoteokSearch, Option.some_bind, hlang, hmin, hlim]
      simp [natTruthy, hk]
    refine ⟨heq, fun hlt => ?_⟩
    rw [heq, List.length_take, List.length_map]
    omega
  · intro dl key query opts now k hkey hlim hk
    have heq : (jsearchSearch (some key) "indeed"
          (.ok { status := "OK", data := some dl }) query (some opts) now).gigs
        = (dl.map (jsearchMapJob now)).take k := by
      have hks : strTruthy (some key) = true := by simp [strTruthy, hkey]
      simp only [jsearchSearch, hks, Bool.not_true, Bool.false_eq_true, if_false,
        Option.some_bind, hlim]
      simp [natTruthy, hk]
    refine ⟨heq, fun hlt => ?_⟩
    rw [heq, List.length_take, List.length_map]
    omega

/-- Witness for C4 (amended): both parts evaluated on three-element upstream
arrays with `limit = 2`. -/
theorem limit_exact_truncation_witness :
    (remoteokSearch
        (.ok (.jsonArray [{ id := "0", slug := "meta" },
                          { id := "1", slug := "a", position := "Dev A" },
                          { id := "2", slug := "b", position := "Dev B" },
                          { id := "3", slug := "c", position := "Dev C" }]))
        "q" (some { limit := some 2 }) "T").gigs
      = ((([{ id := "0", slug := "meta" },
            { id := "1", slug := "a", position := "Dev A" },
            { id := "2", slug := "b", position := "Dev B" },
            { id := "3", slug := "c", position := "Dev C" }]
            : List RemoteOKJob).drop 1).map (remoteokMapJob "T")).take 2
    ∧ (remoteokSearch
        (.ok (.jsonArray [{ id := "0", slug := "meta" },
                          { id := "1", slug := "a", position := "Dev A" },
                          { id := "2", slug := "b", position := "Dev B" },
                          { id := "3", slug := "c", position := "Dev C" }]))
        "q" (some { limit := some 2 }) "T").gigs.length = 2
    ∧ (jsearchSearch (some "rapid-key") "indeed"
        (.ok { status := "OK",
               data := some [{ job_id := "x1", job_title := "JS Dev" },
                             { job_id := "x2", job_title := "TS Dev" },
                             { job_id := "x3", job_title := "Go Dev" }] })
        "q" (some { limit := some 2 }) "T").gigs
      = (([{ job_id := "x1", job_title := "JS Dev" },
           { job_id := "x2", job_title := "TS Dev" },
           { job_id := "x3", job_title := "Go Dev" }]
           : List JSearchJob).map (jsearchMapJob "T")).take 2
    ∧ (jsearchSearch (some "rapid-key") "indeed"
        (.ok { status := "OK",
               data := some [{ job_id := "x1", job_title := "JS Dev" },
                             { job_id := "x2", job_title := "TS Dev" },
                             { job_id := "x3", job_title := "Go Dev" }] })
        "q" (some { limit := some 2 }) "T").gigs.length = 2 := by
  have h1 := limit_exact_truncation.1
    [{ id := "0", slug := "meta" },
     { id := "1", slug := "a", position := "Dev A" },
     { id := "2", slug := "b", position := "Dev B" },
     { id := "3", slug := "c", position := "Dev C" }]
    "q" { limit := some 2 } "T" 2 rfl rfl rfl (by decide)
  have h2 := limit_exact_truncation.2
    [{ job_id := "x1", job_title := "JS Dev" },
     { job_id := "x2", job_title := "TS Dev" },
     { job_id := "x3", job_title := "Go Dev" }]
    "rapid-key" "q" { limit := some 2 } "T" 2 (by decide) rfl (by decide)
  exact ⟨h1.1, h1.2 (by decide), h2.1, h2.2 (by decide)⟩

/-- A list that starts with `pat` contains `pat`. -/
lemma listContainsSub_of_prefix (pat l : List Char) (h : pat.isPrefixOf l = true) :
    listContainsSub pat l = true := by
  cases l with
  | nil =>
    cases pat with
    | nil => rfl
    | cons c p => simp [List.isPrefixOf] at h
  | cons c rest => simp [listContainsSub, h]

/-- A list contains `pat` wherever it occurs. -/
lemma listContainsSub_middle (pat l1 l2 : List Char) :
    listContainsSub pat (l1 ++ (pat ++ l2)) = true := by
  induction l1 with
  | nil =>
    rw [List.nil_append]
    exact listContainsSub_of_prefix pat (pat ++ l2)
      (by rw [List.isPrefixOf_iff_prefix]; exact List.prefix_append _ _)
  | cons c rest ih => simp [listContainsSub, ih]

/-- The aggregator's not-implemented error string names the requested tag. -/
lemma containsSub_notImplemented (scrapers : List (GigSource × Scraper))
    (source : GigSource) :
    containsSub (notImplementedError scrapers source) source = true := by
  unfold notImplementedError containsSub
  simp only [String.toList, String.data_append, List.append_assoc]
  exact listContainsSub_middle _ _ _

/-- C5: for every requested source tag with no registered adapter, the
aggregator synthesizes (in that tag's output slot) a failed result whose
error string names the unimplemented tag and lists the available tags —
no tag is skipped (the output keeps one result per requested source) and no
other adapter is substituted. -/
theorem searchGigs_unimplemented_source (query : String) (sources : List GigSource)
    (options : Option SearchOptions) (scrapers : List (GigSource × Scraper))
    (now : String) (i : Nat) (s : GigSource)
    (hsrc : sources.get? i = some s) (hnone : lookupScraper scrapers s = none) :
    (searchGigs query sources options scrapers now).get? i
      = some { source := s, success := false, gigs := []
               error := some (notImplementedError scrapers s), scrapedAt := now }
    ∧ (searchGigs query sources options scrapers now).length = sources.length
    ∧ containsSub (notImplementedError scrapers s) s = true := by
  refine ⟨?_, by simp [searchGigs], containsSub_notImplemented scrapers s⟩
  rw [searchGigs, List.get?_map, hsrc]
  simp [searchOne, hnone]

/-- An always-succeeding adapter with a fixed result, for concrete
aggregation scenarios. -/
def stubScraper (tag : GigSource) (result : ScrapeResult) : Scraper :=
  ⟨tag, fun _ _ => .ok result⟩

/-- A registry with only a RemoteOK adapter, for concrete scenarios. -/
def soloRegistry : List (GigSource × Scraper) :=
  [("remoteok", stubScraper "remoteok"
      { source := "remoteok", success := true, gigs := [], scrapedAt := "T" })]

/-- Witness for C5: requesting `["remoteok", "fiverr"]` against a registry
holding only `"remoteok"` puts the synthesized not-implemented failure in
slot 1, and its message contains the tag `"fiverr"`. -/
theorem searchGigs_unimplemented_source_witness :
    (searchGigs "q" ["remoteok", "fiverr"] none soloRegistry "T").get? 1
      = some { source := "fiverr", success := false, gigs := []
               error := some (notImplementedError soloRegistry "fiverr"), scrapedAt := "T" }
    ∧ (searchGigs "q" ["remoteok", "fiverr"] none soloRegistry "T").length = 2
    ∧ containsSub (notImplementedError soloRegistry "fiverr") "fiverr" = true := by
  have h := searchGigs_unimplemented_source "q" ["remoteok", "fiverr"] none
    soloRegistry "T" 1 "fiverr" rfl rfl
  exact ⟨h.1, h.2.1, h.2.2⟩

/-- C1: Partial failure isolation of the aggregator.  `searchGigs` returns
exactly one result per requested source, in request order (given that every
registered adapter labels its results with its own tag); each output slot
depends only on that slot's adapter, so the failure of one adapter cannot
remove or alter the results of the others; and an adapter that throws yields
exactly one failed result with `success: false` and no records in its own
slot. -/
theorem searchGigs_partial_failure_isolation
    (query : String) (sources : List GigSource) (options : Option SearchOptions)
    (scrapers scrapers' : List (GigSource × Scraper)) (now : String)
    (hattr : ∀ s scr r, lookupScraper scrapers s = some scr →
        scr.search query options = .ok r → r.source = s) :
    (searchGigs query sources options scrapers now).length = sources.length
    ∧ (∀ i s, sources.get? i = some s →
        ∃ r, (searchGigs query sources options scrapers now).get? i = some r
          ∧ r.source = s)
    ∧ (∀ i s scr, sources.get? i = some s →
        lookupScraper scrapers s = some scr → lookupScraper scrapers' s = some scr →
        (searchGigs query sources options scrapers' now).get? i
          = (searchGigs query sources options scrapers now).get? i)
    ∧ (∀ i s scr msg, sources.get? i = some s →
        lookupScraper scrapers s = some scr → scr.search query options = .error msg →
        (searchGigs query sources options scrapers now).get? i
          = some { source := s, success := false, gigs := []
                   error := some msg, scrapedAt := now }) := by
  refine ⟨by simp [searchGigs], ?_, ?_, ?_⟩
  · intro i s hs
    rw [searchGigs, List.get?_map, hs]
    refine ⟨searchOne scrapers query options now s, rfl, ?_⟩
    unfold searchOne
    cases hl : lookupScraper scrapers s with
    | none => simp
    | some scr =>
      cases hr : scr.search query options with
      | ok r =>
        simp only [hr]
        exact hattr s scr r hl hr
      | error msg => simp [hr]
  · intro i s scr hs h1 h2
    rw [searchGigs, searchGigs, List.get?_map, List.get?_map, hs]
    simp [searchOne, h1, h2]
  · intro i s scr msg hs h1 h2
    rw [searchGigs, List.get?_map, hs]
    simp [searchOne, h1, h2]

/-- The three-adapter registry of the concrete partial-failure scenario: a
JSearch-backed `"indeed"` adapter whose upstream succeeds with two jobs, a
RemoteOK adapter whose upstream answers HTTP 500, and a stub `"himalayas"`
adapter with one record. -/
def scenarioRegistry : List (GigSource × Scraper) :=
  [("indeed",
    ⟨"indeed", fun q o => .ok (jsearchSearch (some "rapid-key") "indeed"
      (.ok { status := "OK",
             data := some [{ job_id := "x1", job_title := "JS Dev" },
                           { job_id := "x2", job_title := "TS Dev" }] }) q o "T")⟩),
   ("remoteok",
    ⟨"remoteok", fun q o => .ok (remoteokSearch (.httpStatus 500) q o "T")⟩),
   ("himalayas",
    stubScraper "himalayas"
      { source := "himalayas", success := true
        gigs := [{ id := "himalayas_h1", source := "himalayas", sourceUrl := "u"
                   title := "H Dev", description := "", scrapedAt := "T" }]
        scrapedAt := "T" })]

/-- Witness for C1: three configured sources of which exactly one
(`"remoteok"`, upstream HTTP 500) fails: the aggregator output has one result
per source in request order, the failing source's slot holds `success: false`
with zero records, and the other two sources' slots keep their 2 and 1
successful records. -/
theorem searchGigs_partial_failure_isolation_witness :
    (searchGigs "web design" ["indeed", "remoteok", "himalayas"]
        (some { limit := some 5 }) scenarioRegistry "T").length = 3
    ∧ (∃ r, (searchGigs "web design" ["indeed", "remoteok", "himalayas"]
        (some { limit := some 5 }) scenarioRegistry "T").get? 1 = some r
          ∧ r.source = "remoteok")
    ∧ (searchGigs "web design" ["indeed", "remoteok", "himalayas"]
        (some { limit := some 5 }) scenarioRegistry "T").get? 1
      = some { source := "remoteok", success := false, gigs := []
               error := some "RemoteOK API error: 500", scrapedAt := "T" }
    ∧ ((searchGigs "web design" ["indeed", "remoteok", "himalayas"]
        (some { limit := some 5 }) scenarioRegistry "T").get? 0).map
          (fun r => (r.success, r.gigs.length)) = some (true, 2)
    ∧ ((searchGigs "web design" ["indeed", "remoteok", "himalayas"]
        (some { limit := some 5 }) scenarioRegistry "T").get? 2).map
          (fun r => (r.success, r.gigs.length)) = some (true, 1) := by
  have hattr : ∀ s scr r, lookupScraper scenarioRegistry s = some scr →
      scr.search "web design" (some { limit := some 5 }) = .ok r → r.source = s := by
    intro s scr r h1 h2
    simp only [scenarioRegistry, lookupScraper] at h1
    split_ifs at h1 with hA hB hC
    all_goals
      (cases h1; cases h2; first | exact hA | exact hB | exact hC)
  have thm := searchGigs_partial_failure_isolation "web design"
    ["indeed", "remoteok", "himalayas"] (some { limit := some 5 })
    scenarioRegistry scenarioRegistry "T" hattr
  refine ⟨by simpa using thm.1, thm.2.1 1 "remoteok" rfl, by decide, by decide, by decide⟩

end BountyBoard
